import Mathlib

/-!
Shallow embedding of the ssb-wifi AP rotation daemon (src/ap/ap_rotate.py)
and the QR join-string escaper (src/qr/make_qr.py), with theorems checking
the specification's claims against it.

Modelling conventions:
* Python `str` is modelled as `String` (or `List Char` for the character
  level escaping code), Python `float` timestamps and `int` counts as `Int`.
* The filesystem is made explicit: the trigger-marker file is a `Bool`
  (present/absent), the published status file is an `Option InterfaceStatus`
  field of the engine state, and for the low-level write pattern of
  `update_status` a trace of file operations is built.
* Calls whose outcome depends on the outside world (writing the hostapd
  config, generating the QR image, restarting hostapd, the random SSID and
  password, the clock, the client count) are inputs to the embedded
  functions, gathered in `RotInput`.
-/

namespace SsbWifi

/-- `Credentials` dataclass of ap_rotate.py (lines 88-96). Timestamps are
modelled as `Int`. -/
structure Credentials where
  interface : String
  ssid : String
  password : String
  created_at : Int
  expires_at : Int
  rotation_reason : String
deriving Repr, DecidableEq

/-- `InterfaceStatus` dataclass of ap_rotate.py (lines 99-111). -/
structure InterfaceStatus where
  interface : String
  enabled : Bool
  state : String
  ssid : String
  created_at : Int
  expires_at : Int
  time_remaining : Int
  client_count : Int
  last_rotation_reason : String
  last_error : Option String
deriving Repr, DecidableEq

/-- The global configuration fields of `DEFAULT_CONFIG` that the embedded
functions read (ap_rotate.py lines 34-45). -/
structure Config where
  rotation_interval_sec : Int
  client_threshold : Int
  min_time_after_clients_sec : Int
  log_retention_count : Nat
  manual_rotation_cooldown_sec : Int
deriving Repr, DecidableEq

/-- State of one `APInstance` (ap_rotate.py lines 114-128): its interface
name, per-interface enabled flag, the shared global config it references,
the current credentials, the in-memory manual-rotation cooldown stamp, and
the content of its published status file (`none` before the first write). -/
structure EngineState where
  interface : String
  enabled : Bool
  global_config : Config
  current_creds : Option Credentials
  last_manual_rotation : Int
  published : Option InterfaceStatus
deriving Repr, DecidableEq

/-- The environment-dependent inputs of one rotation attempt / tick:
the clock, the live client count, the freshly generated SSID and password,
and the success of the three external effects of `rotate_credentials`. -/
structure RotInput where
  now : Int
  clientCount : Int
  ssid : String
  password : String
  writeOk : Bool
  qrOk : Bool
  restartOk : Bool
deriving Repr, DecidableEq

/-- `APInstance.should_rotate` (ap_rotate.py lines 383-412): returns the
rotation decision and the reason string; the client count is the value
`get_client_count` returned. -/
def should_rotate (s : EngineState) (now clientCount : Int) : Bool × String :=
  match s.current_creds with
  | none => (true, "initial")
  | some creds =>
    let time_since_creation := now - creds.created_at
    if now ≥ creds.expires_at then
      (true, "time_expired")
    else
      let threshold := s.global_config.client_threshold
      let min_time := s.global_config.min_time_after_clients_sec
      if clientCount ≥ threshold ∧ time_since_creation ≥ min_time then
        (true, "client_threshold_" ++ toString clientCount)
      else
        (false, "")

/-- `APInstance.update_status` (ap_rotate.py lines 292-318): rebuilds the
`InterfaceStatus` snapshot from the engine's live state and overwrites the
published status file with it. `clientCount` is what `get_client_count`
returned inside the call. -/
def update_status (s : EngineState) (now clientCount : Int) (state : String)
    (error : Option String) : EngineState :=
  let time_remaining : Int :=
    match s.current_creds with
    | some creds => if creds.expires_at > now then creds.expires_at - now else 0
    | none => 0
  let st : InterfaceStatus :=
    { interface := s.interface
      enabled := s.enabled
      state := state
      ssid := match s.current_creds with | some c => c.ssid | none => ""
      created_at := match s.current_creds with | some c => c.created_at | none => 0
      expires_at := match s.current_creds with | some c => c.expires_at | none => 0
      time_remaining := time_remaining
      client_count := clientCount
      last_rotation_reason :=
        match s.current_creds with | some c => c.rotation_reason | none => ""
      last_error := error }
  { s with published := some st }

/-- The externally visible steps of a rotation attempt, in the order
`rotate_credentials` performs them. -/
inductive Step where
  | writeConfig
  | generateQR
  | restartHostapd
  | saveCredentials
deriving Repr, DecidableEq

/-- `APInstance.rotate_credentials` (ap_rotate.py lines 320-362): publishes
`rotating`, writes the hostapd config (fatal on failure), generates the QR
image (best effort), restarts hostapd (fatal on failure), then replaces the
credentials, saves them and publishes `ready`. Returns the Python `bool`
result, the new engine state, and the list of external steps that ran. -/
def rotate_credentials (s : EngineState) (reason : String) (i : RotInput) :
    Bool × EngineState × List Step :=
  let s0 := update_status s i.now i.clientCount "rotating" none
  let expires_at := i.now + s.global_config.rotation_interval_sec
  if ¬ i.writeOk then
    (false,
     update_status s0 i.now i.clientCount "error"
       (some "Failed to write hostapd config"),
     [Step.writeConfig])
  else if ¬ i.restartOk then
    (false,
     update_status s0 i.now i.clientCount "error"
       (some "Failed to restart hostapd"),
     [Step.writeConfig, Step.generateQR, Step.restartHostapd])
  else
    let creds : Credentials :=
      { interface := s.interface
        ssid := i.ssid
        password := i.password
        created_at := i.now
        expires_at := expires_at
        rotation_reason := reason }
    let s1 := { s0 with current_creds := some creds }
    (true,
     update_status s1 i.now i.clientCount "ready" none,
     [Step.writeConfig, Step.generateQR, Step.restartHostapd,
      Step.saveCredentials])

/-- `APInstance.check_trigger_file` (ap_rotate.py lines 364-381): the marker
file is a `Bool`. Returns the Python result, whether the marker exists
afterwards, and the new engine state (only `last_manual_rotation` can
change). -/
def check_trigger_file (s : EngineState) (triggerExists : Bool) (now : Int) :
    Bool × Bool × EngineState :=
  if triggerExists then
    let cooldown := s.global_config.manual_rotation_cooldown_sec
    if now - s.last_manual_rotation < cooldown then
      (false, false, s)
    else
      (true, false, { s with last_manual_rotation := now })
  else
    (false, triggerExists, s)

/-- The per-engine body of the supervisor's main loop
(`APRotationDaemon.run`, ap_rotate.py lines 557-573): manual trigger first
(rotating with reason `"manual_trigger"` when accepted), then the policy
decision, else a plain `"ready"` status refresh. -/
def tick (s : EngineState) (triggerExists : Bool) (i : RotInput) : EngineState :=
  let ct := check_trigger_file s triggerExists i.now
  if ct.1 then
    (rotate_credentials ct.2.2 "manual_trigger" i).2.1
  else
    let sr := should_rotate ct.2.2 i.now i.clientCount
    if sr.1 then
      (rotate_credentials ct.2.2 sr.2 i).2.1
    else
      update_status ct.2.2 i.now i.clientCount "ready" none

/-- The per-engine startup sequence of `APRotationDaemon.run`
(ap_rotate.py lines 544-552): one rotation with reason `"startup"`, on
failure one retry with reason `"startup_retry"`, and if that also fails a
published `error` status with message `"Startup rotation failed"`. Returns
the final engine state and the reasons of the rotation attempts made. -/
def startup_engine (s : EngineState) (i1 i2 : RotInput) :
    EngineState × List String :=
  let r1 := rotate_credentials s "startup" i1
  if r1.1 then
    (r1.2.1, ["startup"])
  else
    let r2 := rotate_credentials r1.2.1 "startup_retry" i2
    if r2.1 then
      (r2.2.1, ["startup", "startup_retry"])
    else
      (update_status r2.2.1 i2.now i2.clientCount "error"
        (some "Startup rotation failed"),
       ["startup", "startup_retry"])

/-- One entry of the rotation history (`APRotationDaemon.log_rotation`,
ap_rotate.py lines 517-523). -/
structure RotationEntry where
  timestamp : String
  interface : String
  ssid : String
  reason : String
  created_at : Int
deriving Repr, DecidableEq

/-- Python's `l[-n:]` tail slice: for `n = 0` it is the whole list
(`l[-0:] = l[0:]`), otherwise the last `n` elements. -/
def pyTailSlice (n : Nat) (l : List RotationEntry) : List RotationEntry :=
  if n = 0 then l else l.drop (l.length - n)

/-- The list transformation of `APRotationDaemon.log_rotation`
(ap_rotate.py lines 509-535): append the new entry, then if the list is
longer than the retention count keep only `rotations[-retention:]`. -/
def log_rotation (rotations : List RotationEntry) (entry : RotationEntry)
    (retention : Nat) : List RotationEntry :=
  let r := rotations ++ [entry]
  if r.length > retention then pyTailSlice retention r else r

/-- Supervisor state (`APRotationDaemon`): the shared config and the engine
map, modelled as an association list keyed by interface name. -/
structure DaemonState where
  config : Config
  ap_instances : List (String × EngineState)
deriving Repr, DecidableEq

/-- `APRotationDaemon._handle_reload` (ap_rotate.py lines 501-507): replace
the supervisor's config with the newly loaded one and set every engine's
`global_config` to it. -/
def handle_reload (d : DaemonState) (newConfig : Config) : DaemonState :=
  { config := newConfig
    ap_instances :=
      d.ap_instances.map fun p => (p.1, { p.2 with global_config := newConfig }) }

/-- A file operation, to express the write pattern of `update_status` at the
filesystem level. `openWrite p` is Python's `open(p, 'w')`, which truncates
`p` in place. -/
inductive FileOp where
  | openWrite : String → FileOp
  | writeAll : String → String → FileOp
  | chmod : String → Nat → FileOp
  | rename : String → String → FileOp
deriving Repr, DecidableEq

/-- The file operations `APInstance.update_status` performs on the status
file (ap_rotate.py lines 313-315): open the status path for writing
(truncating it), dump the JSON payload into it, chmod it to 0o644. -/
def update_status_file_ops (statusPath payload : String) : List FileOp :=
  [FileOp.openWrite statusPath, FileOp.writeAll statusPath payload,
   FileOp.chmod statusPath 420]

/-- An operation list performs an atomic replace of `finalPath` when it
never opens `finalPath` for (truncating) writing directly and instead
renames some temporary path onto it. -/
def isAtomicReplaceWrite (finalPath : String) (ops : List FileOp) : Prop :=
  (∃ tmp, tmp ≠ finalPath ∧ FileOp.rename tmp finalPath ∈ ops) ∧
  (∀ op ∈ ops, op ≠ FileOp.openWrite finalPath)

/-- Python's `str.replace` for a single-character pattern `a`, replacing
every occurrence by the list `r`; strings are modelled as `List Char`. -/
def replaceChar (a : Char) (r : List Char) : List Char → List Char
  | [] => []
  | c :: cs => (if c = a then r else [c]) ++ replaceChar a r cs

/-- `escape_wifi_string` of make_qr.py (lines 47-59): the five sequential
`replace` calls, backslash first. -/
def escape_wifi_string (s : List Char) : List Char :=
  replaceChar ':' ['\\', ':']
    (replaceChar '"' ['\\', '"']
      (replaceChar ',' ['\\', ',']
        (replaceChar ';' ['\\', ';']
          (replaceChar '\\' ['\\', '\\'] s))))

/-- Modelled from the spec: the decoder for backslash-escaped join-strings
(not part of this repository — readers of the QR payload remove one level
of backslash-escaping, each `\\c` pair becoming `c`). -/
def unescape_wifi_string : List Char → List Char
  | [] => []
  | [c] => [c]
  | c :: d :: cs =>
    if c = '\\' then d :: unescape_wifi_string cs
    else c :: unescape_wifi_string (d :: cs)

/-- Per-character view of the escaper: the five special characters gain a
leading backslash, every other character is unchanged. -/
def escapedChar (c : Char) : List Char :=
  if c = '\\' ∨ c = ';' ∨ c = ',' ∨ c = '"' ∨ c = ':' then ['\\', c] else [c]

/-- The rotation history produced by a sequence of `log_rotation` calls
starting from an empty log. -/
def rotation_history (es : List RotationEntry) (retention : Nat) :
    List RotationEntry :=
  es.foldl (fun acc e => log_rotation acc e retention) []

/-- Sample configuration: the numeric defaults of `DEFAULT_CONFIG`. -/
def cfg0 : Config := ⟨300, 5, 120, 100, 30⟩

/-- Sample credentials created at time 0 with the default interval. -/
def creds0 : Credentials := ⟨"wlan0", "ssb-abc123", "pw12345678", 0, 300, "startup"⟩

/-- Sample engine before any rotation. -/
def engine0 : EngineState := ⟨"wlan0", true, cfg0, none, 0, none⟩

/-- Sample engine holding `creds0`. -/
def engine1 : EngineState := ⟨"wlan0", true, cfg0, some creds0, 0, none⟩

/-- Sample rotation input where every external effect succeeds. -/
def input_ok : RotInput := ⟨100, 0, "ssb-new1", "newpw", true, true, true⟩

/-- Sample rotation input where writing the hostapd config fails. -/
def input_badwrite : RotInput := ⟨100, 0, "ssb-new1", "newpw", false, true, true⟩

/-- Sample rotation input where restarting hostapd fails. -/
def input_badrestart : RotInput := ⟨100, 0, "ssb-new1", "newpw", true, true, false⟩

/-- Sample rotation-history entry. -/
def entryA : RotationEntry := ⟨"2025-01-01T00:00:00", "wlan0", "ssb-a1", "startup", 0⟩

/-- Second sample rotation-history entry. -/
def entryB : RotationEntry :=
  ⟨"2025-01-01T00:05:00", "wlan0", "ssb-b2", "time_expired", 300⟩

/-- Sample engine whose published status is an error left by a failed
rotation, while it still holds the valid credentials `creds0`. -/
def engineErr : EngineState :=
  { engine1 with
    published := some ⟨"wlan0", true, "error", "ssb-abc123", 0, 300, 200, 0,
      "startup", some "Failed to restart hostapd"⟩ }

lemma replaceChar_append (a : Char) (r : List Char) (xs ys : List Char) :
    replaceChar a r (xs ++ ys) = replaceChar a r xs ++ replaceChar a r ys := by
  induction xs with
  | nil => rfl
  | cons c cs ih => simp [replaceChar, ih]

lemma escape_append (xs ys : List Char) :
    escape_wifi_string (xs ++ ys) =
      escape_wifi_string xs ++ escape_wifi_string ys := by
  simp [escape_wifi_string, replaceChar_append]

lemma escape_singleton (c : Char) :
    escape_wifi_string [c] = escapedChar c := by
  by_cases h1 : c = '\\'
  · subst h1; decide
  · by_cases h2 : c = ';'
    · subst h2; decide
    · by_cases h3 : c = ','
      · subst h3; decide
      · by_cases h4 : c = '"'
        · subst h4; decide
        · by_cases h5 : c = ':'
          · subst h5; decide
          · simp [escape_wifi_string, replaceChar, escapedChar,
              h1, h2, h3, h4, h5]

lemma escape_cons (c : Char) (cs : List Char) :
    escape_wifi_string (c :: cs) = escapedChar c ++ escape_wifi_string cs := by
  have h : c :: cs = [c] ++ cs := rfl
  rw [h, escape_append, escape_singleton]

lemma unescape_escape (s : List Char) :
    unescape_wifi_string (escape_wifi_string s) = s := by
  induction s with
  | nil => rfl
  | cons c cs ih =>
    rw [escape_cons]
    by_cases hspec : c = '\\' ∨ c = ';' ∨ c = ',' ∨ c = '"' ∨ c = ':'
    · rw [escapedChar, if_pos hspec]
      simp [unescape_wifi_string, ih]
    · rw [escapedChar, if_neg hspec]
      have hc : c ≠ '\\' := fun h => hspec (Or.inl h)
      cases h : escape_wifi_string cs with
      | nil =>
        have : cs = [] := by rw [← ih, h]; rfl
        simp [unescape_wifi_string, this, h]
      | cons d rest =>
        rw [h] at ih
        simp [unescape_wifi_string, hc, ih]

/-- C1: the rotation decision applies its checks in order — no credentials
gives `(true, "initial")`; otherwise expiry (`now >= expires_at`) gives
`(true, "time_expired")` regardless of client count; otherwise the client
threshold combined with the minimum age gives
`(true, "client_threshold_<count>")`; otherwise no rotation. -/
theorem should_rotate_cases (s : EngineState) (now clientCount : Int) :
    (s.current_creds = none → should_rotate s now clientCount = (true, "initial")) ∧
    (∀ creds, s.current_creds = some creds →
      (now ≥ creds.expires_at →
        should_rotate s now clientCount = (true, "time_expired")) ∧
      (now < creds.expires_at →
        clientCount ≥ s.global_config.client_threshold →
        now - creds.created_at ≥ s.global_config.min_time_after_clients_sec →
        should_rotate s now clientCount =
          (true, "client_threshold_" ++ toString clientCount)) ∧
      (now < creds.expires_at →
        ¬ (clientCount ≥ s.global_config.client_threshold ∧
           now - creds.created_at ≥ s.global_config.min_time_after_clients_sec) →
        should_rotate s now clientCount = (false, ""))) := by
  constructor
  · intro h
    simp [should_rotate, h]
  · intro creds h
    refine ⟨?_, ?_, ?_⟩
    · intro hexp
      simp [should_rotate, h, hexp]
    · intro hlt hcl hage
      have hne : ¬ now ≥ creds.expires_at := not_le.mpr hlt
      simp [should_rotate, h, hne, hcl, hage]
    · intro hlt hnot
      have hne : ¬ now ≥ creds.expires_at := not_le.mpr hlt
      simp only [should_rotate, h]
      rw [if_neg hne, if_neg hnot]

/-- Witness for C1: a concrete engine state exercising the hypotheses of
`should_rotate_cases`. -/
theorem should_rotate_cases_witness :
    (let cfg : Config := ⟨300, 5, 120, 100, 30⟩
     let creds : Credentials := ⟨"wlan0", "ssb-abc", "pw", 0, 300, "initial"⟩
     let s : EngineState := ⟨"wlan0", true, cfg, some creds, 0, none⟩
     should_rotate s 150 6 = (true, "client_threshold_6")) := by
  have h := should_rotate_cases
    ⟨"wlan0", true, ⟨300, 5, 120, 100, 30⟩,
      some ⟨"wlan0", "ssb-abc", "pw", 0, 300, "initial"⟩, 0, none⟩ 150 6
  exact (h.2 ⟨"wlan0", "ssb-abc", "pw", 0, 300, "initial"⟩ rfl).2.1
    (by decide) (by decide) (by decide)

/-- C2: when the config-write gate or the hostapd-restart gate of
`rotate_credentials` fails, the call returns `false`, `current_creds` is
unchanged, the published status has state `"error"` with a last-error
message, and the later steps of the attempt (in particular saving the new
credentials) do not run. -/
theorem rotate_failure_gates (s : EngineState) (reason : String) (i : RotInput)
    (h : i.writeOk = false ∨ i.restartOk = false) :
    (rotate_credentials s reason i).1 = false ∧
    (rotate_credentials s reason i).2.1.current_creds = s.current_creds ∧
    (∃ st, (rotate_credentials s reason i).2.1.published = some st ∧
      st.state = "error" ∧ st.last_error ≠ none) ∧
    Step.saveCredentials ∉ (rotate_credentials s reason i).2.2 ∧
    (i.writeOk = false →
      (rotate_credentials s reason i).2.2 = [Step.writeConfig]) := by
  have hbad : ∀ msg steps,
      rotate_credentials s reason i =
        (false,
         update_status (update_status s i.now i.clientCount "rotating" none)
           i.now i.clientCount "error" (some msg), steps) →
      (rotate_credentials s reason i).1 = false ∧
      (rotate_credentials s reason i).2.1.current_creds = s.current_creds ∧
      (∃ st, (rotate_credentials s reason i).2.1.published = some st ∧
        st.state = "error" ∧ st.last_error ≠ none) := by
    intro msg steps hres
    rw [hres]
    exact ⟨rfl, rfl, ⟨_, rfl, rfl, by simp⟩⟩
  rcases h with hw | hr
  · have hres : rotate_credentials s reason i =
        (false,
         update_status (update_status s i.now i.clientCount "rotating" none)
           i.now i.clientCount "error" (some "Failed to write hostapd config"),
         [Step.writeConfig]) := by
      simp [rotate_credentials, hw]
    have hmain := hbad _ _ hres
    refine ⟨hmain.1, hmain.2.1, hmain.2.2, ?_, fun _ => ?_⟩
    · rw [hres]; simp
    · rw [hres]
  · cases hwv : i.writeOk with
    | false =>
      have hres : rotate_credentials s reason i =
          (false,
           update_status (update_status s i.now i.clientCount "rotating" none)
             i.now i.clientCount "error" (some "Failed to write hostapd config"),
           [Step.writeConfig]) := by
        simp [rotate_credentials, hwv]
      have hmain := hbad _ _ hres
      refine ⟨hmain.1, hmain.2.1, hmain.2.2, ?_, fun _ => ?_⟩
      · rw [hres]; simp
      · rw [hres]
    | true =>
      have hres : rotate_credentials s reason i =
          (false,
           update_status (update_status s i.now i.clientCount "rotating" none)
             i.now i.clientCount "error" (some "Failed to restart hostapd"),
           [Step.writeConfig, Step.generateQR, Step.restartHostapd]) := by
        simp [rotate_credentials, hwv, hr]
      have hmain := hbad _ _ hres
      refine ⟨hmain.1, hmain.2.1, hmain.2.2, ?_, fun hcon => ?_⟩
      · rw [hres]; simp
      · simp [hwv] at hcon

/-- Witness for C2: a failed config write at a concrete engine state. -/
theorem rotate_failure_gates_witness :
    (rotate_credentials engine1 "manual_trigger" input_badwrite).1 = false ∧
    (rotate_credentials engine1 "manual_trigger" input_badwrite).2.1.current_creds
      = engine1.current_creds ∧
    (∃ st,
      (rotate_credentials engine1 "manual_trigger" input_badwrite).2.1.published
        = some st ∧ st.state = "error" ∧ st.last_error ≠ none) ∧
    Step.saveCredentials ∉
      (rotate_credentials engine1 "manual_trigger" input_badwrite).2.2 ∧
    (input_badwrite.writeOk = false →
      (rotate_credentials engine1 "manual_trigger" input_badwrite).2.2
        = [Step.writeConfig]) :=
  rotate_failure_gates engine1 "manual_trigger" input_badwrite (Or.inl rfl)

/-- C4: the escaper turns exactly the five special characters into
backslash pairs and leaves every other character alone; decoding one level
of backslash-escaping recovers the original string, so the escaper is
injective; the concrete passphrase of the claim round-trips. -/
theorem escape_wifi_string_roundtrip :
    (∀ c, escape_wifi_string [c] = escapedChar c) ∧
    (∀ s, unescape_wifi_string (escape_wifi_string s) = s) ∧
    Function.Injective escape_wifi_string ∧
    escape_wifi_string
        ['a', '\\', 'b', ';', 'c', ',', 'd', '"', 'e', ':', 'f'] =
      ['a', '\\', '\\', 'b', '\\', ';', 'c', '\\', ',', 'd', '\\', '"',
       'e', '\\', ':', 'f'] ∧
    unescape_wifi_string (escape_wifi_string
        ['a', '\\', 'b', ';', 'c', ',', 'd', '"', 'e', ':', 'f']) =
      ['a', '\\', 'b', ';', 'c', ',', 'd', '"', 'e', ':', 'f'] := by
  refine ⟨escape_singleton, unescape_escape, ?_, by decide, by decide⟩
  intro a b hab
  rw [← unescape_escape a, ← unescape_escape b, hab]

/-- Witness for C4: the round trip at a concrete string. -/
theorem escape_wifi_string_roundtrip_witness :
    unescape_wifi_string (escape_wifi_string ['x', ':', '\\']) =
      ['x', ':', '\\'] :=
  escape_wifi_string_roundtrip.2.1 ['x', ':', '\\']

/-- C5: when the trigger marker exists, `check_trigger_file` always removes
it, returns `true` exactly when the manual cooldown has elapsed, stamps the
cooldown on acceptance and changes nothing on rejection; when the marker is
absent it returns `false` and changes nothing. -/
theorem check_trigger_file_spec (s : EngineState) (tr : Bool) (now : Int) :
    (tr = true →
      (check_trigger_file s tr now).2.1 = false ∧
      ((check_trigger_file s tr now).1 = true ↔
        now - s.last_manual_rotation ≥
          s.global_config.manual_rotation_cooldown_sec) ∧
      ((check_trigger_file s tr now).1 = true →
        (check_trigger_file s tr now).2.2 =
          { s with last_manual_rotation := now }) ∧
      ((check_trigger_file s tr now).1 = false →
        (check_trigger_file s tr now).2.2 = s)) ∧
    (tr = false → check_trigger_file s tr now = (false, false, s)) := by
  constructor
  · intro htr
    subst htr
    by_cases hc : now - s.last_manual_rotation <
        s.global_config.manual_rotation_cooldown_sec
    · have hres : check_trigger_file s true now = (false, false, s) := by
        simp [check_trigger_file, hc]
      rw [hres]
      refine ⟨rfl, ?_, ?_, fun _ => rfl⟩
      · simp only [Bool.false_eq_true, false_iff]
        omega
      · intro hcontra
        exact absurd hcontra (by simp)
    · have hres : check_trigger_file s true now =
          (true, false, { s with last_manual_rotation := now }) := by
        simp [check_trigger_file, hc]
      rw [hres]
      refine ⟨rfl, ?_, fun _ => rfl, ?_⟩
      · simp only [true_iff]
        omega
      · intro hcontra
        exact absurd hcontra (by simp)
  · intro htr
    subst htr
    rfl

/-- Witness for C5: a marker consumed inside the cooldown window. -/
theorem check_trigger_file_spec_witness :
    (check_trigger_file { engine1 with last_manual_rotation := 90 } true 100).2.1
        = false ∧
    ((check_trigger_file { engine1 with last_manual_rotation := 90 } true 100).1
        = true ↔ (100 : Int) - 90 ≥ cfg0.manual_rotation_cooldown_sec) ∧
    ((check_trigger_file { engine1 with last_manual_rotation := 90 } true 100).1
        = true →
      (check_trigger_file { engine1 with last_manual_rotation := 90 } true 100).2.2
        = { engine1 with last_manual_rotation := 100 }) ∧
    ((check_trigger_file { engine1 with last_manual_rotation := 90 } true 100).1
        = false →
      (check_trigger_file { engine1 with last_manual_rotation := 90 } true 100).2.2
        = { engine1 with last_manual_rotation := 90 }) :=
  (check_trigger_file_spec { engine1 with last_manual_rotation := 90 } true 100).1
    rfl

/-- C8: a successful rotation installs a freshly constructed `Credentials`
value built from the new SSID, password and clock, and (for a positive
rotation interval) it satisfies `created_at < expires_at`. -/
theorem rotate_success_fresh (s : EngineState) (reason : String) (i : RotInput)
    (hw : i.writeOk = true) (hr : i.restartOk = true)
    (hpos : 0 < s.global_config.rotation_interval_sec) :
    (rotate_credentials s reason i).1 = true ∧
    (rotate_credentials s reason i).2.1.current_creds =
      some { interface := s.interface, ssid := i.ssid, password := i.password,
             created_at := i.now,
             expires_at := i.now + s.global_config.rotation_interval_sec,
             rotation_reason := reason } ∧
    (∀ c, (rotate_credentials s reason i).2.1.current_creds = some c →
      c.created_at < c.expires_at) := by
  refine ⟨?_, ?_, ?_⟩
  · simp [rotate_credentials, update_status, hw, hr]
  · simp [rotate_credentials, update_status, hw, hr]
  · intro c hc
    simp [rotate_credentials, update_status, hw, hr] at hc
    rw [← hc]
    simp
    omega

/-- Witness for C8: a successful rotation at a concrete engine state. -/
theorem rotate_success_fresh_witness :
    (rotate_credentials engine1 "time_expired" input_ok).1 = true ∧
    (rotate_credentials engine1 "time_expired" input_ok).2.1.current_creds =
      some { interface := engine1.interface, ssid := input_ok.ssid,
             password := input_ok.password, created_at := input_ok.now,
             expires_at := input_ok.now +
               engine1.global_config.rotation_interval_sec,
             rotation_reason := "time_expired" } ∧
    (∀ c, (rotate_credentials engine1 "time_expired" input_ok).2.1.current_creds
        = some c → c.created_at < c.expires_at) :=
  rotate_success_fresh engine1 "time_expired" input_ok rfl rfl (by decide)

lemma log_rotation_length_le (retention : Nat) (h : 1 ≤ retention)
    (l : List RotationEntry) (e : RotationEntry)
    (hl : l.length ≤ retention) :
    (log_rotation l e retention).length ≤ retention := by
  simp only [log_rotation, pyTailSlice]
  by_cases hlen : (l ++ [e]).length > retention
  · rw [if_pos hlen, if_neg (by omega : ¬ retention = 0)]
    rw [List.length_drop]
    omega
  · rw [if_neg hlen]
    omega

lemma rotation_history_step (retention : Nat) (l : List RotationEntry)
    (e : RotationEntry) :
    rotation_history (l ++ [e]) retention =
      log_rotation (rotation_history l retention) e retention := by
  simp [rotation_history, List.foldl_append]

lemma rotation_history_of_le (retention : Nat) :
    ∀ es : List RotationEntry, es.length ≤ retention →
      rotation_history es retention = es := by
  intro es
  induction es using List.reverseRecOn with
  | nil => intro _; rfl
  | append_singleton l e ih =>
    intro hlen
    have hlen' : (l ++ [e]).length = l.length + 1 := by simp
    have hl : l.length ≤ retention := by omega
    rw [rotation_history_step, ih hl]
    simp only [log_rotation]
    rw [if_neg (by omega : ¬ (l ++ [e]).length > retention)]

lemma rotation_history_length_le (retention : Nat) (h : 1 ≤ retention) :
    ∀ es : List RotationEntry,
      (rotation_history es retention).length ≤ retention := by
  intro es
  induction es using List.reverseRecOn with
  | nil => simp [rotation_history]
  | append_singleton l e ih =>
    rw [rotation_history_step]
    exact log_rotation_length_le retention h _ e ih

/-- C6 (amended to a positive retention count): with retention `N ≥ 1`, the
history after every sequence of appends has at most `N` entries, and after
`N + 1` appends it is exactly the appended sequence with its oldest entry
dropped — FIFO eviction, newest entry present. -/
theorem rotation_history_capped (retention : Nat) (h : 1 ≤ retention) :
    (∀ es : List RotationEntry,
      (rotation_history es retention).length ≤ retention) ∧
    (∀ es : List RotationEntry, es.length = retention + 1 →
      rotation_history es retention = es.drop 1) := by
  refine ⟨rotation_history_length_le retention h, ?_⟩
  intro es hlen
  rcases List.eq_nil_or_concat es with rfl | ⟨l, e, rfl⟩
  · simp at hlen
  · rw [List.concat_eq_append] at hlen ⊢
    have hlen' : (l ++ [e]).length = l.length + 1 := by simp
    have hl : l.length = retention := by omega
    rw [rotation_history_step, rotation_history_of_le retention l (le_of_eq hl)]
    simp only [log_rotation]
    rw [if_pos (by omega : (l ++ [e]).length > retention)]
    simp only [pyTailSlice]
    rw [if_neg (by omega : ¬ retention = 0)]
    have hd : (l ++ [e]).length - retention = 1 := by omega
    rw [hd]

/-- Witness for C6: retention 1, two appended entries; the history keeps
only the newer entry. -/
theorem rotation_history_capped_witness :
    (rotation_history [entryA, entryB] 1).length ≤ 1 ∧
    rotation_history [entryA, entryB] 1 = [entryA, entryB].drop 1 := by
  have hthm := rotation_history_capped 1 (by decide)
  exact ⟨hthm.1 [entryA, entryB], hthm.2 [entryA, entryB] (by decide)⟩

/-- Counterexample for C6 as stated: with retention count 0, Python's
`rotations[-0:]` slice keeps the whole list, so a single logged rotation
already leaves more than 0 entries in the history. -/
theorem log_rotation_zero_retention_counterexample :
    ¬ ((log_rotation [] entryA 0).length ≤ 0) := by
  decide

lemma rotate_result_false (s : EngineState) (reason : String) (i : RotInput)
    (h : ¬ (i.writeOk = true ∧ i.restartOk = true)) :
    (rotate_credentials s reason i).1 = false := by
  cases hw : i.writeOk with
  | false => simp [rotate_credentials, hw]
  | true =>
    cases hr : i.restartOk with
    | false => simp [rotate_credentials, hw, hr]
    | true => exact absurd ⟨hw, hr⟩ h

/-- Counterexample for C7 as stated: even a fully successful startup
attempts its mandatory rotation with reason `"startup"`, not `"initial"`. -/
theorem startup_reason_counterexample :
    (startup_engine engine0 input_ok input_ok).2 ≠ ["initial"] := by
  decide

/-- C7 (amended: the reasons are `"startup"` and `"startup_retry"`): at
supervisor startup exactly one mandatory rotation per engine is attempted
with reason `"startup"`; if it fails exactly one retry with reason
`"startup_retry"` follows, and if that also fails the interface is left
with published state `"error"`. -/
theorem startup_engine_spec (s : EngineState) (i1 i2 : RotInput) :
    ((i1.writeOk = true ∧ i1.restartOk = true) →
      (startup_engine s i1 i2).2 = ["startup"]) ∧
    (¬ (i1.writeOk = true ∧ i1.restartOk = true) →
      (startup_engine s i1 i2).2 = ["startup", "startup_retry"] ∧
      (¬ (i2.writeOk = true ∧ i2.restartOk = true) →
        ∃ st, (startup_engine s i1 i2).1.published = some st ∧
          st.state = "error" ∧
          st.last_error = some "Startup rotation failed")) := by
  constructor
  · rintro ⟨hw, hr⟩
    simp [startup_engine, rotate_credentials, hw, hr]
  · intro hfail
    have h1 := rotate_result_false s "startup" i1 hfail
    constructor
    · by_cases h2 : (rotate_credentials (rotate_credentials s "startup" i1).2.1
          "startup_retry" i2).1 = true
      · simp [startup_engine, h1, h2]
      · simp [startup_engine, h1, h2]
    · intro hfail2
      have h2 := rotate_result_false
        (rotate_credentials s "startup" i1).2.1 "startup_retry" i2 hfail2
      have hres : startup_engine s i1 i2 =
          (update_status
            (rotate_credentials (rotate_credentials s "startup" i1).2.1
              "startup_retry" i2).2.1
            i2.now i2.clientCount "error" (some "Startup rotation failed"),
           ["startup", "startup_retry"]) := by
        simp [startup_engine, h1, h2]
      rw [hres]
      exact ⟨_, rfl, rfl, rfl⟩

/-- Witness for C7: a startup whose config writes always fail ends with two
attempts and a published startup error. -/
theorem startup_engine_spec_witness :
    (startup_engine engine0 input_badwrite input_badwrite).2 =
        ["startup", "startup_retry"] ∧
    (∃ st, (startup_engine engine0 input_badwrite input_badwrite).1.published
        = some st ∧ st.state = "error" ∧
        st.last_error = some "Startup rotation failed") := by
  have h := (startup_engine_spec engine0 input_badwrite input_badwrite).2
    (by decide)
  exact ⟨h.1, h.2 (by decide)⟩

lemma reload_map_proj {β : Type} (l : List (String × EngineState))
    (c : Config) (f : String × EngineState → β)
    (hf : ∀ p : String × EngineState,
      f (p.1, { p.2 with global_config := c }) = f p) :
    (l.map fun p => (p.1, { p.2 with global_config := c })).map f =
      l.map f := by
  induction l with
  | nil => rfl
  | cons p ps ih => simp [ih, hf]

lemma reload_map_config (l : List (String × EngineState)) (c : Config) :
    (l.map fun p => (p.1, { p.2 with global_config := c })).map
        (fun p => p.2.global_config) = l.map fun _ => c := by
  induction l with
  | nil => rfl
  | cons p ps ih => simp [ih]

/-- C9: handling a reload replaces the supervisor config and gives every
engine the new shared config, and changes nothing else — the engine map's
keys and size are unchanged and every other engine field (credentials,
cooldown stamp, published status, name, enabled flag) is untouched. -/
theorem handle_reload_frame (d : DaemonState) (c : Config) :
    (handle_reload d c).config = c ∧
    (handle_reload d c).ap_instances.length = d.ap_instances.length ∧
    (handle_reload d c).ap_instances.map Prod.fst =
      d.ap_instances.map Prod.fst ∧
    (handle_reload d c).ap_instances.map (fun p => p.2.global_config) =
      d.ap_instances.map (fun _ => c) ∧
    (handle_reload d c).ap_instances.map (fun p => p.2.current_creds) =
      d.ap_instances.map (fun p => p.2.current_creds) ∧
    (handle_reload d c).ap_instances.map (fun p => p.2.last_manual_rotation) =
      d.ap_instances.map (fun p => p.2.last_manual_rotation) ∧
    (handle_reload d c).ap_instances.map (fun p => p.2.published) =
      d.ap_instances.map (fun p => p.2.published) ∧
    (handle_reload d c).ap_instances.map (fun p => p.2.interface) =
      d.ap_instances.map (fun p => p.2.interface) ∧
    (handle_reload d c).ap_instances.map (fun p => p.2.enabled) =
      d.ap_instances.map (fun p => p.2.enabled) := by
  refine ⟨rfl, ?_, ?_, reload_map_config d.ap_instances c,
    ?_, ?_, ?_, ?_, ?_⟩
  · simp [handle_reload]
  · exact reload_map_proj d.ap_instances c _ (fun p => rfl)
  · exact reload_map_proj d.ap_instances c _ (fun p => rfl)
  · exact reload_map_proj d.ap_instances c _ (fun p => rfl)
  · exact reload_map_proj d.ap_instances c _ (fun p => rfl)
  · exact reload_map_proj d.ap_instances c _ (fun p => rfl)
  · exact reload_map_proj d.ap_instances c _ (fun p => rfl)

/-- C10: after a failed rotation left an `"error"` status while the engine
still holds valid, unexpired credentials, the next tick in which no
rotation condition holds republishes the status as `"ready"` with no
last-error message, even though no successful rotation has happened. -/
theorem tick_republishes_ready (s : EngineState) (i : RotInput)
    (creds : Credentials)
    (hprev : ∃ st0, s.published = some st0 ∧ st0.state = "error")
    (hc : s.current_creds = some creds)
    (hexp : i.now < creds.expires_at)
    (hth : ¬ (i.clientCount ≥ s.global_config.client_threshold ∧
      i.now - creds.created_at ≥ s.global_config.min_time_after_clients_sec)) :
    ∃ st, (tick s false i).published = some st ∧
      st.state = "ready" ∧ st.last_error = none := by
  have hct : check_trigger_file s false i.now = (false, false, s) := rfl
  have hsr : should_rotate s i.now i.clientCount = (false, "") := by
    simp only [should_rotate, hc]
    rw [if_neg (not_le.mpr hexp), if_neg hth]
  have hres : tick s false i = update_status s i.now i.clientCount "ready" none := by
    simp [tick, hct, hsr]
  rw [hres]
  exact ⟨_, rfl, rfl, rfl⟩

/-- Witness for C10: an engine left in error state with valid credentials
and no clients republishes `"ready"` on the next quiet tick. -/
theorem tick_republishes_ready_witness :
    ∃ st, (tick engineErr false input_ok).published = some st ∧
      st.state = "ready" ∧ st.last_error = none :=
  tick_republishes_ready engineErr input_ok creds0 ⟨_, rfl, rfl⟩ rfl
    (by decide) (by decide)

/-- Counterexample for C3 as stated: the status write of `update_status`
opens the status path itself for truncating writing and performs no
temporary-path rename, so it is not an atomic replace. -/
theorem update_status_not_atomic :
    ¬ isAtomicReplaceWrite "status-wlan0.json"
        (update_status_file_ops "status-wlan0.json" "payload") := by
  intro h
  exact h.2 (FileOp.openWrite "status-wlan0.json")
    (by simp [update_status_file_ops]) rfl

/-- C3 (amended): every write of an interface's status file truncates and
rewrites the final path in place — the operation sequence opens the status
path itself for writing and contains no rename of a temporary path — so a
concurrent reader is not protected against observing a partial file. -/
theorem update_status_writes_in_place (statusPath payload : String) :
    FileOp.openWrite statusPath ∈ update_status_file_ops statusPath payload ∧
    FileOp.writeAll statusPath payload ∈
      update_status_file_ops statusPath payload ∧
    ∀ a b, FileOp.rename a b ∉ update_status_file_ops statusPath payload := by
  refine ⟨by simp [update_status_file_ops], by simp [update_status_file_ops], ?_⟩
  intro a b hmem
  simp [update_status_file_ops] at hmem

end SsbWifi
